import Mathlib

/-!
Verification of the frame-buffer / texture-presenter / layout core of
CameraXSDL3 (`app/jni/src/camera.c`), shallowly embedded in Lean.

Modelling conventions:
* Bytes are `Nat`s, byte buffers are `List Nat`; the allocated size of
  `cImage.data` is `data.length` (the C `image->data` allocation size).
* `float` arithmetic of `calculateRect` and `videoRatio` is embedded as
  exact rational (`ℚ`) arithmetic.
* SDL backend primitives that are external collaborators (renderer clear,
  present, the rotated-texture blit) are modelled as succeeding; texture
  creation and host-memory allocation, whose failure the code checks, take
  an explicit success oracle (`texOk`, `allocOk`).
* The C globals `mWidth`/`mHeight` (the presenter's cached texture
  dimensions) are gathered in `Globals`; a texture handle is modelled as
  `Option (Nat × Nat)` recording the dimensions it was created with.
-/

set_option maxRecDepth 8192

namespace CameraXSDL3

/-- The presenter's cached texture dimensions: the C globals `mWidth` and
`mHeight`, both initialized to 0. -/
structure Globals where
  mWidth : Nat
  mHeight : Nat
deriving DecidableEq

/-- The `cImage` struct of camera.c: texture handle (with the dimensions it
was created with), raw data buffer, its recorded byte length, frame
dimensions, aspect ratio, and the `new` (dirty) flag. -/
structure CImage where
  texture : Option (Nat × Nat)
  data : List Nat
  length : Nat
  width : Nat
  height : Nat
  videoRatio : ℚ
  isNew : Bool
deriving DecidableEq

/-- A frame submitted from the producer: the Java byte array plus its
reported width and height (`processYUVImage` arguments). -/
structure Submission where
  bytes : List Nat
  width : Nat
  height : Nat
deriving DecidableEq

/-- The state `cImage_New` produces: `calloc` zero-initializes every field,
so the image starts with no texture, no data, zero length and dimensions,
zero ratio, and the `new` flag clear. -/
def initImage : CImage :=
  { texture := none, data := [], length := 0, width := 0, height := 0
    videoRatio := 0, isNew := false }

/-- Initial presenter cache: the C globals `mWidth = 0`, `mHeight = 0`. -/
def initGlobals : Globals := ⟨0, 0⟩

/-- The tail of `processYUVImage` after the (re)allocation check:
`GetByteArrayRegion` copies `data_len = bytes.length` bytes into the start
of the buffer, then `new`, `width`, `height` are set. -/
def finishSubmit (s : Submission) (me : CImage) : CImage :=
  { me with data := s.bytes ++ me.data.drop s.bytes.length,
            isNew := true, width := s.width, height := s.height }

/-- `Java_com_example_cameraxsdl3_CameraXsdl3Activity_processYUVImage`:
under the image mutex, if the incoming byte count exceeds the recorded
`length`, set `length` to it, free the old buffer and `calloc` a new
zero-filled one of exactly that size (on allocation failure, modelled by
`allocOk = false`, the function logs and jumps to EXIT, leaving the rest of
the state untouched); then copy the bytes in and set `new`/`width`/`height`. -/
def processYUVImage (allocOk : Bool) (s : Submission) (me : CImage) : CImage :=
  let data_len := s.bytes.length
  if data_len > me.length then
    let me1 := { me with length := data_len, data := ([] : List Nat) }
    if allocOk then
      finishSubmit s { me1 with data := List.replicate data_len 0 }
    else
      me1
  else
    finishSubmit s me

/-- Folding a sequence of submissions (producer calls) over an image state. -/
def runSubmits (allocOk : Bool) (l : List Submission) (me : CImage) : CImage :=
  l.foldl (fun st s => processYUVImage allocOk s st) me

/-- Byte count of an NV12 frame of the given dimensions: a full luma plane
plus an interleaved half-resolution chroma plane; this is what
`SDL_UpdateTexture` reads for an `SDL_PIXELFORMAT_NV12` texture. -/
def nv12Size (w h : Nat) : Nat :=
  w * h + 2 * (((w + 1) / 2) * ((h + 1) / 2))

/-- Result of one `cImage_TextureUpdate` call: the returned Bool, the
updated presenter cache and image, and the bytes uploaded to the texture
this call (`none` when no upload happened). -/
structure UpdateResult where
  ok : Bool
  g : Globals
  img : CImage
  uploaded : Option (List Nat)
deriving DecidableEq

/-- `cImage_TextureUpdate`: under the mutex, if the cached `mWidth`/`mHeight`
differ from the image's current dimensions, destroy the old texture and
create a new one at the current dimensions (failure, `texOk = false`,
returns false with the texture gone and the cache not updated), update the
cache and recompute `videoRatio`; then, if `length` is nonzero and the data
is new, upload the frame (reading the NV12 payload for the texture's
dimensions) and clear the `new` flag; uploading through a null texture
fails. -/
def cImage_TextureUpdate (texOk : Bool) (g : Globals) (me : CImage) : UpdateResult :=
  let step1 : Option (Globals × CImage) :=
    if g.mWidth ≠ me.width ∨ g.mHeight ≠ me.height then
      if texOk then
        some (⟨me.width, me.height⟩,
              { me with texture := some (me.width, me.height),
                        videoRatio := (me.width : ℚ) / (me.height : ℚ) })
      else
        none
    else
      some (g, me)
  match step1 with
  | none => ⟨false, g, { me with texture := none }, none⟩
  | some (g1, me1) =>
    if me1.length ≠ 0 then
      if me1.isNew then
        match me1.texture with
        | none => ⟨false, g1, me1, none⟩
        | some t =>
          ⟨true, g1, { me1 with isNew := false },
           some (me1.data.take (nv12Size t.1 t.2))⟩
      else ⟨true, g1, me1, none⟩
    else ⟨true, g1, me1, none⟩

/-- A rectangle with rational coordinates, mirroring `SDL_FRect`. -/
structure FRect where
  x : ℚ
  y : ℚ
  w : ℚ
  h : ℚ
deriving DecidableEq

/-- `calculateRect`: compute the destination rectangle centered in
`displayRect`. For rotation 90/270 the aspect adjustment runs against the
width axis and the final width/height are swapped; for 0/180 it runs
against the height axis with no swap. -/
def calculateRect (displayRect : FRect) (rotation : Int) (videoRatio : ℚ) : FRect :=
  let midx : ℚ := displayRect.x + displayRect.w / 2
  let midy : ℚ := displayRect.y + displayRect.h / 2
  let adjustedWidth := displayRect.w
  let adjustedHeight := displayRect.h
  let p : ℚ × ℚ :=
    if rotation = 90 ∨ rotation = 270 then
      if adjustedHeight > adjustedWidth * videoRatio then
        (adjustedHeight / videoRatio, adjustedHeight)
      else
        (adjustedWidth, adjustedWidth * videoRatio)
    else
      if adjustedWidth > adjustedHeight * videoRatio then
        (adjustedWidth, adjustedWidth / videoRatio)
      else
        (adjustedHeight * videoRatio, adjustedHeight)
  let wh : ℚ × ℚ :=
    if rotation = 90 ∨ rotation = 270 then (p.2, p.1) else p
  { x := midx - wh.1 / 2, y := midy - wh.2 / 2, w := wh.1, h := wh.2 }

/-- The coarse display orientation enum (`SDL_DisplayOrientation`). -/
inductive DisplayOrientation
  | unknown
  | landscape
  | landscapeFlipped
  | portrait
  | portraitFlipped
deriving DecidableEq

/-- The switch in `getOrientation` mapping the display orientation enum to
the rotation angle written through the out-parameter (the success path of
the function; a failed display query returns false and writes nothing). -/
def getOrientation (o : DisplayOrientation) : Int :=
  match o with
  | .unknown => 180
  | .landscape => 180
  | .landscapeFlipped => 0
  | .portrait => 270
  | .portraitFlipped => 90

/-- Result of one `cImage_Render` call: the returned Bool, updated state,
uploaded bytes, and the destination rectangle actually drawn (`none` when
the draw was skipped because the texture handle is null). -/
structure RenderResult where
  ok : Bool
  g : Globals
  img : CImage
  uploaded : Option (List Nat)
  drawn : Option FRect
deriving DecidableEq

/-- `cImage_Render`: run `cImage_TextureUpdate` (propagating its failure),
compute the destination rectangle, and, only when the texture handle is
non-null, draw it there (`SDL_RenderTextureRotated`, an external backend
call modelled as succeeding). -/
def cImage_Render (texOk : Bool) (g : Globals) (me : CImage)
    (parentRect : FRect) (orientation : Int) : RenderResult :=
  let u := cImage_TextureUpdate texOk g me
  if u.ok then
    let rect := calculateRect parentRect orientation u.img.videoRatio
    match u.img.texture with
    | some _ => ⟨true, u.g, u.img, u.uploaded, some rect⟩
    | none => ⟨true, u.g, u.img, u.uploaded, none⟩
  else
    ⟨false, u.g, u.img, u.uploaded, none⟩

/-- Outcome of one tick of the SDL app callbacks. -/
inductive AppResult
  | cont
  | success
  | failure
deriving DecidableEq

/-- `SDL_AppIterate`: clear the renderer, render the image, present
(clear and present are external backend calls modelled as succeeding); the
tick reports failure exactly when `cImage_Render` fails. -/
def SDL_AppIterate (texOk : Bool) (g : Globals) (me : CImage)
    (screenRect : FRect) (orientation : Int) :
    AppResult × Globals × CImage × Option (List Nat) :=
  let r := cImage_Render texOk g me screenRect orientation
  if r.ok then (AppResult.cont, r.g, r.img, r.uploaded)
  else (AppResult.failure, r.g, r.img, r.uploaded)

/-! ## Helper lemmas -/

/-- One successful submission preserves the agreement between the allocated
buffer size and the `length` field, and never decreases `length`. -/
theorem submit_step_inv (s : Submission) (me : CImage)
    (h : me.data.length = me.length) :
    (processYUVImage true s me).data.length = (processYUVImage true s me).length ∧
    me.length ≤ (processYUVImage true s me).length := by
  simp only [processYUVImage, finishSubmit]
  split
  · next hgt =>
    simp [List.length_append, List.length_drop, List.length_replicate]
    omega
  · next hle =>
    simp [List.length_append, List.length_drop]
    omega

/-- A successful submission sets the frame fields, makes the data buffer
start with the submitted bytes, and keeps `length` at least their count. -/
theorem submit_true_fields (s : Submission) (me : CImage) :
    (processYUVImage true s me).width = s.width ∧
    (processYUVImage true s me).height = s.height ∧
    (processYUVImage true s me).isNew = true ∧
    (processYUVImage true s me).data.take s.bytes.length = s.bytes ∧
    s.bytes.length ≤ (processYUVImage true s me).length := by
  simp only [processYUVImage, finishSubmit]
  split
  · next hgt =>
    refine ⟨rfl, rfl, rfl, ?_, ?_⟩
    · simp
    · simp
  · next hle =>
    refine ⟨rfl, rfl, rfl, ?_, ?_⟩
    · simp
    · simp
      omega

/-- `cImage_TextureUpdate` when the cached dimensions already match and the
data is not new: nothing is created or uploaded and the state is unchanged. -/
theorem textureUpdateClean (texOk : Bool) (g : Globals) (me : CImage)
    (h1 : g.mWidth = me.width) (h2 : g.mHeight = me.height)
    (hn : me.isNew = false) :
    cImage_TextureUpdate texOk g me = ⟨true, g, me, none⟩ := by
  simp only [cImage_TextureUpdate]
  rw [if_neg (by simp [h1, h2])]
  by_cases hl : me.length ≠ 0 <;> simp [hl, hn]

/-- `cImage_TextureUpdate` when the cached dimensions already match, the
texture exists and the data is new: the frame is uploaded and the `new`
flag cleared. -/
theorem textureUpdateDirty (texOk : Bool) (g : Globals) (me : CImage)
    (t : Nat × Nat) (h1 : g.mWidth = me.width) (h2 : g.mHeight = me.height)
    (hl : me.length ≠ 0) (hn : me.isNew = true) (ht : me.texture = some t) :
    cImage_TextureUpdate texOk g me =
      ⟨true, g, { me with isNew := false },
       some (me.data.take (nv12Size t.1 t.2))⟩ := by
  simp only [cImage_TextureUpdate]
  rw [if_neg (by simp [h1, h2])]
  simp [hl, hn, ht]

/-- `cImage_TextureUpdate` when the dimensions changed, creation succeeds and
new data of nonzero length is pending: the texture is recreated at the
image's dimensions, the cache and ratio updated, and the frame uploaded. -/
theorem textureUpdateResize (g : Globals) (me : CImage)
    (hne : g.mWidth ≠ me.width ∨ g.mHeight ≠ me.height)
    (hl : me.length ≠ 0) (hn : me.isNew = true) :
    cImage_TextureUpdate true g me =
      ⟨true, ⟨me.width, me.height⟩,
       { me with texture := some (me.width, me.height),
                 videoRatio := (me.width : ℚ) / (me.height : ℚ),
                 isNew := false },
       some (me.data.take (nv12Size me.width me.height))⟩ := by
  simp only [cImage_TextureUpdate]
  rw [if_pos hne]
  simp [hl, hn]

/-! ## Claim theorems -/

/-- C1 (counterexample): the claim says that after submitting a 100-byte
frame and then a 50-byte frame `length` equals 50; in the code the `length`
field is only written in the growth branch, so after the 50-byte submission
it still reads 100. -/
theorem C1_counterexample :
    ¬ ((runSubmits true [⟨List.replicate 100 1, 10, 10⟩, ⟨List.replicate 50 2, 5, 10⟩]
        initImage).length = 50) := by
  decide

/-- C1 (amended): `submit` records the running maximum of the submitted byte
counts in `length` (`length` doubles as the storage capacity); in particular
after submitting a 100-byte frame and then a 50-byte frame the storage
capacity is 100 (≥ 100) and `length` equals 100, not 50. -/
theorem C1_length_is_running_max :
    (∀ (allocOk : Bool) (s : Submission) (me : CImage),
        (processYUVImage allocOk s me).length = max me.length s.bytes.length) ∧
    (runSubmits true [⟨List.replicate 100 1, 10, 10⟩, ⟨List.replicate 50 2, 5, 10⟩]
        initImage).data.length = 100 ∧
    (runSubmits true [⟨List.replicate 100 1, 10, 10⟩, ⟨List.replicate 50 2, 5, 10⟩]
        initImage).length = 100 := by
  refine ⟨?_, by decide, by decide⟩
  intro allocOk s me
  simp only [processYUVImage, finishSubmit]
  split
  · next h =>
    cases allocOk <;> simp <;> omega
  · next h =>
    simp
    omega

/-- C2 (counterexample): the claim says that for rotation 90/270 the computed
rectangle satisfies height/width = ratio; at viewport 1080×1920, rotation
270, ratio 8/7, the code produces a 1920×1680 rectangle whose height/width
is 7/8, not 8/7. -/
theorem C2_counterexample :
    ¬ ((calculateRect ⟨0, 0, 1080, 1920⟩ 270 (8 / 7)).h /
        (calculateRect ⟨0, 0, 1080, 1920⟩ 270 (8 / 7)).w = (8 / 7 : ℚ)) := by
  norm_num [calculateRect]

/-- C2 (amended): for every viewport with positive dimensions, ratio r > 0
and rotation in {0, 90, 180, 270}, the rectangle computed by `calculateRect`
satisfies width/height = r — for 90/270 as well, because the portrait branch
establishes adjustedHeight = adjustedWidth·r before the swap — and it is
centered at the viewport's center point. -/
theorem C2_aspect_and_centering :
    ∀ (v : FRect) (rotation : Int) (r : ℚ),
      (rotation = 0 ∨ rotation = 90 ∨ rotation = 180 ∨ rotation = 270) →
      0 < r → 0 < v.w → 0 < v.h →
      (calculateRect v rotation r).w / (calculateRect v rotation r).h = r ∧
      (calculateRect v rotation r).x + (calculateRect v rotation r).w / 2
        = v.x + v.w / 2 ∧
      (calculateRect v rotation r).y + (calculateRect v rotation r).h / 2
        = v.y + v.h / 2 := by
  intro v rotation r hrot hr hw hh
  have hr0 : r ≠ 0 := ne_of_gt hr
  have hw0 : v.w ≠ 0 := ne_of_gt hw
  have hh0 : v.h ≠ 0 := ne_of_gt hh
  rcases hrot with h | h | h | h <;> subst h <;>
    simp only [calculateRect] <;> norm_num <;> split_ifs with hc <;>
    dsimp only <;> field_simp

/-- C2 (witness): the amended theorem instantiated at viewport (0,0,4,3),
rotation 0, ratio 1. -/
theorem C2_witness :
    ((0 : Int) = 0 ∨ (0 : Int) = 90 ∨ (0 : Int) = 180 ∨ (0 : Int) = 270) ∧
    (0 : ℚ) < 1 ∧ (0 : ℚ) < (⟨0, 0, 4, 3⟩ : FRect).w ∧ (0 : ℚ) < (⟨0, 0, 4, 3⟩ : FRect).h ∧
    ((calculateRect ⟨0, 0, 4, 3⟩ 0 1).w / (calculateRect ⟨0, 0, 4, 3⟩ 0 1).h = 1 ∧
     (calculateRect ⟨0, 0, 4, 3⟩ 0 1).x + (calculateRect ⟨0, 0, 4, 3⟩ 0 1).w / 2
       = (⟨0, 0, 4, 3⟩ : FRect).x + (⟨0, 0, 4, 3⟩ : FRect).w / 2 ∧
     (calculateRect ⟨0, 0, 4, 3⟩ 0 1).y + (calculateRect ⟨0, 0, 4, 3⟩ 0 1).h / 2
       = (⟨0, 0, 4, 3⟩ : FRect).y + (⟨0, 0, 4, 3⟩ : FRect).h / 2) :=
  ⟨Or.inl rfl, by norm_num, by norm_num, by norm_num,
   C2_aspect_and_centering ⟨0, 0, 4, 3⟩ 0 1 (Or.inl rfl) (by norm_num) (by norm_num)
     (by norm_num)⟩

/-- C3 (counterexample): the claim says the computed rectangle lies entirely
inside the viewport; at viewport (0,0,1080,1920), rotation 270, ratio 8/7,
the rectangle's x coordinate is -420, strictly left of the viewport's
origin. -/
theorem C3_counterexample :
    (calculateRect ⟨0, 0, 1080, 1920⟩ 270 (8 / 7)).x < (0 : ℚ) := by
  norm_num [calculateRect]

/-- C3 (amended): `calculateRect` implements a centered covering rectangle,
not a contained one: for rotation 0/180 the rectangle extends to or beyond
every edge of the viewport, and for 90/270 the swapped rectangle's width is
at least the viewport's height and its height at least the viewport's
width. -/
theorem C3_cover_not_fit :
    ∀ (v : FRect) (rotation : Int) (r : ℚ),
      0 < r → 0 < v.w → 0 < v.h →
      ((rotation = 0 ∨ rotation = 180) →
        (calculateRect v rotation r).x ≤ v.x ∧
        (calculateRect v rotation r).y ≤ v.y ∧
        v.x + v.w ≤ (calculateRect v rotation r).x + (calculateRect v rotation r).w ∧
        v.y + v.h ≤ (calculateRect v rotation r).y + (calculateRect v rotation r).h) ∧
      ((rotation = 90 ∨ rotation = 270) →
        v.h ≤ (calculateRect v rotation r).w ∧
        v.w ≤ (calculateRect v rotation r).h) := by
  intro v rotation r hr hw hh
  constructor
  · rintro (h | h) <;> subst h <;>
      simp only [calculateRect] <;> norm_num <;> split_ifs with hc <;>
      dsimp only <;>
      first
        | (have key : v.h ≤ v.w / r := le_of_lt ((lt_div_iff₀ hr).mpr hc)
           exact ⟨by linarith, by linarith, by linarith, by linarith⟩)
        | (have key : v.w ≤ v.h * r := not_lt.mp hc
           exact ⟨by linarith, by linarith, by linarith, by linarith⟩)
  · rintro (h | h) <;> subst h <;>
      simp only [calculateRect] <;> norm_num <;> split_ifs with hc <;>
      dsimp only <;>
      first
        | (have key : v.w ≤ v.h / r := le_of_lt ((lt_div_iff₀ hr).mpr hc)
           exact ⟨by linarith, by linarith⟩)
        | (have key : v.h ≤ v.w * r := not_lt.mp hc
           exact ⟨by linarith, by linarith⟩)

/-- C3 (witness): the amended theorem instantiated at viewport (0,0,4,3),
rotation 180, ratio 1. -/
theorem C3_witness :
    (0 : ℚ) < 1 ∧ (0 : ℚ) < (⟨0, 0, 4, 3⟩ : FRect).w ∧ (0 : ℚ) < (⟨0, 0, 4, 3⟩ : FRect).h ∧
    ((((180 : Int) = 0 ∨ (180 : Int) = 180) →
        (calculateRect ⟨0, 0, 4, 3⟩ 180 1).x ≤ (⟨0, 0, 4, 3⟩ : FRect).x ∧
        (calculateRect ⟨0, 0, 4, 3⟩ 180 1).y ≤ (⟨0, 0, 4, 3⟩ : FRect).y ∧
        (⟨0, 0, 4, 3⟩ : FRect).x + (⟨0, 0, 4, 3⟩ : FRect).w ≤
          (calculateRect ⟨0, 0, 4, 3⟩ 180 1).x + (calculateRect ⟨0, 0, 4, 3⟩ 180 1).w ∧
        (⟨0, 0, 4, 3⟩ : FRect).y + (⟨0, 0, 4, 3⟩ : FRect).h ≤
          (calculateRect ⟨0, 0, 4, 3⟩ 180 1).y + (calculateRect ⟨0, 0, 4, 3⟩ 180 1).h) ∧
     (((180 : Int) = 90 ∨ (180 : Int) = 270) →
        (⟨0, 0, 4, 3⟩ : FRect).h ≤ (calculateRect ⟨0, 0, 4, 3⟩ 180 1).w ∧
        (⟨0, 0, 4, 3⟩ : FRect).w ≤ (calculateRect ⟨0, 0, 4, 3⟩ 180 1).h)) :=
  ⟨by norm_num, by norm_num, by norm_num,
   C3_cover_not_fit ⟨0, 0, 4, 3⟩ 180 1 (by norm_num) (by norm_num) (by norm_num)⟩

/-- C4: latest-wins — after any sequence of submissions ending in a
well-formed frame Sn (positive dimensions, byte count matching its NV12
payload), with no intervening consume, the buffer holds Sn's width, height
and dirty flag, and the presenter's dirty-data upload step uploads exactly
Sn's bytes. -/
theorem C4_latest_wins :
    ∀ (l : List Submission) (s : Submission),
      0 < s.width → 0 < s.height → s.bytes.length = nv12Size s.width s.height →
      (runSubmits true (l ++ [s]) initImage).width = s.width ∧
      (runSubmits true (l ++ [s]) initImage).height = s.height ∧
      (runSubmits true (l ++ [s]) initImage).isNew = true ∧
      (cImage_TextureUpdate true initGlobals
        (runSubmits true (l ++ [s]) initImage)).uploaded = some s.bytes := by
  intro l s hw hh hlen
  have hfold : runSubmits true (l ++ [s]) initImage
      = processYUVImage true s (runSubmits true l initImage) := by
    simp [runSubmits, List.foldl_append]
  set st0 := runSubmits true l initImage with hst0
  obtain ⟨hW, hH, hN, hData, hLen⟩ := submit_true_fields s st0
  rw [hfold]
  have hsize : 0 < nv12Size s.width s.height := by
    have : 0 < s.width * s.height := Nat.mul_pos hw hh
    unfold nv12Size
    omega
  have hl0 : (processYUVImage true s st0).length ≠ 0 := by omega
  have hup := textureUpdateResize initGlobals (processYUVImage true s st0)
    (Or.inl (by simp [initGlobals, hW]; omega)) hl0 hN
  refine ⟨hW, hH, hN, ?_⟩
  rw [hup]
  simp only [hW, hH]
  rw [← hlen, hData]

/-- C4 (witness): submit a 12-byte 2×4 frame then a 6-byte 2×2 frame; the
upload step returns exactly the 6 bytes and dimensions of the second. -/
theorem C4_witness :
    0 < (2 : Nat) ∧ 0 < (2 : Nat) ∧
    (List.replicate 6 1).length = nv12Size 2 2 ∧
    ((runSubmits true ([⟨List.replicate 12 0, 2, 4⟩] ++ [⟨List.replicate 6 1, 2, 2⟩])
        initImage).width = 2 ∧
     (runSubmits true ([⟨List.replicate 12 0, 2, 4⟩] ++ [⟨List.replicate 6 1, 2, 2⟩])
        initImage).height = 2 ∧
     (runSubmits true ([⟨List.replicate 12 0, 2, 4⟩] ++ [⟨List.replicate 6 1, 2, 2⟩])
        initImage).isNew = true ∧
     (cImage_TextureUpdate true initGlobals
        (runSubmits true ([⟨List.replicate 12 0, 2, 4⟩] ++ [⟨List.replicate 6 1, 2, 2⟩])
          initImage)).uploaded = some (List.replicate 6 1)) :=
  ⟨by decide, by decide, by decide,
   C4_latest_wins [⟨List.replicate 12 0, 2, 4⟩] ⟨List.replicate 6 1, 2, 2⟩
     (by decide) (by decide) (by decide)⟩

/-- C5 (counterexample): the claim says a failed buffer growth is surfaced
as a failed termination of the process; in the code the JNI submit path
logs, unlocks and returns, and the next render tick from the initial state
reports continue, not failure — the process keeps running. -/
theorem C5_counterexample :
    (SDL_AppIterate true initGlobals
      (processYUVImage false ⟨List.replicate 100 1, 4, 4⟩ initImage)
      ⟨0, 0, 100, 200⟩ 270).1 = AppResult.cont := by
  decide

/-- C5 (amended): when buffer growth fails inside submit, the failure is
logged and swallowed: the frame is dropped without setting the dirty flag,
and the render loop continues (the following tick reports continue); only
texture creation/upload failures during a tick terminate the process. -/
theorem C5_swallowed :
    ∀ (texOk : Bool) (s : Submission) (screenRect : FRect) (orientation : Int),
      s.bytes ≠ [] →
      (processYUVImage false s initImage).isNew = false ∧
      (SDL_AppIterate texOk initGlobals (processYUVImage false s initImage)
        screenRect orientation).1 = AppResult.cont := by
  intro texOk s screenRect orientation hs
  have hpos : 0 < s.bytes.length := List.length_pos.mpr hs
  have hst : processYUVImage false s initImage
      = { initImage with length := s.bytes.length, data := [] } := by
    simp only [processYUVImage]
    rw [if_pos (by simpa [initImage] using hpos)]
    simp
  rw [hst]
  have hclean := textureUpdateClean texOk initGlobals
    { initImage with length := s.bytes.length, data := [] } rfl rfl rfl
  constructor
  · rfl
  · simp only [SDL_AppIterate, cImage_Render, hclean]
    rfl

/-- C5 (witness): the amended theorem at a one-byte submission whose
allocation fails. -/
theorem C5_witness :
    ([5] : List Nat) ≠ [] ∧
    ((processYUVImage false ⟨[5], 1, 1⟩ initImage).isNew = false ∧
     (SDL_AppIterate true initGlobals (processYUVImage false ⟨[5], 1, 1⟩ initImage)
       ⟨0, 0, 4, 3⟩ 0).1 = AppResult.cont) :=
  ⟨by decide, C5_swallowed true ⟨[5], 1, 1⟩ ⟨0, 0, 4, 3⟩ 0 (by decide)⟩

/-- C6: capacity monotonicity — starting from any state whose allocated
size agrees with `length` (as the initial state does), any sequence of
successful submissions keeps that agreement (capacity ≥ length), never
decreases `length`, and never shrinks the allocated storage. -/
theorem C6_capacity_monotone :
    ∀ (l : List Submission) (me : CImage), me.data.length = me.length →
      (runSubmits true l me).data.length = (runSubmits true l me).length ∧
      me.length ≤ (runSubmits true l me).length ∧
      me.data.length ≤ (runSubmits true l me).data.length := by
  intro l
  induction l with
  | nil =>
    intro me h
    simp only [runSubmits, List.foldl_nil]
    omega
  | cons s t ih =>
    intro me h
    have hs := submit_step_inv s me h
    have ht := ih (processYUVImage true s me) hs.1
    simp only [runSubmits, List.foldl_cons] at ht ⊢
    refine ⟨ht.1, ?_, ?_⟩ <;> omega

/-- C6 (witness): the monotonicity theorem at the 100-byte then 50-byte
sequence from the initial state. -/
theorem C6_witness :
    initImage.data.length = initImage.length ∧
    ((runSubmits true [⟨List.replicate 100 1, 10, 10⟩, ⟨List.replicate 50 2, 5, 10⟩]
        initImage).data.length =
      (runSubmits true [⟨List.replicate 100 1, 10, 10⟩, ⟨List.replicate 50 2, 5, 10⟩]
        initImage).length ∧
     initImage.length ≤
      (runSubmits true [⟨List.replicate 100 1, 10, 10⟩, ⟨List.replicate 50 2, 5, 10⟩]
        initImage).length ∧
     initImage.data.length ≤
      (runSubmits true [⟨List.replicate 100 1, 10, 10⟩, ⟨List.replicate 50 2, 5, 10⟩]
        initImage).data.length) :=
  ⟨by decide,
   C6_capacity_monotone [⟨List.replicate 100 1, 10, 10⟩, ⟨List.replicate 50 2, 5, 10⟩]
     initImage (by decide)⟩

/-- C7 (counterexample): the claim quantifies over every dirty state; a
zero-byte submission makes the buffer dirty, yet the first consume uploads
nothing (the upload is guarded by `length != 0`) and leaves the dirty flag
set. -/
theorem C7_counterexample :
    (processYUVImage true ⟨[], 2, 2⟩ initImage).isNew = true ∧
    (cImage_TextureUpdate true initGlobals
      (processYUVImage true ⟨[], 2, 2⟩ initImage)).uploaded = none ∧
    (cImage_TextureUpdate true initGlobals
      (processYUVImage true ⟨[], 2, 2⟩ initImage)).img.isNew = true := by
  decide

/-- C7 (amended): no duplicate consume for nonempty frames — in any dirty
state with nonzero `length`, a live texture, and matching cached
dimensions, the first consume uploads the frame and clears the dirty flag,
and a second consume with no submission in between uploads nothing. -/
theorem C7_consume_then_none :
    ∀ (texOk texOk2 : Bool) (g : Globals) (me : CImage) (t : Nat × Nat),
      me.isNew = true → me.length ≠ 0 → me.texture = some t →
      g.mWidth = me.width → g.mHeight = me.height →
      (cImage_TextureUpdate texOk g me).uploaded =
        some (me.data.take (nv12Size t.1 t.2)) ∧
      (cImage_TextureUpdate texOk g me).img.isNew = false ∧
      (cImage_TextureUpdate texOk2 (cImage_TextureUpdate texOk g me).g
        (cImage_TextureUpdate texOk g me).img).uploaded = none := by
  intro texOk texOk2 g me t hn hl ht h1 h2
  have h := textureUpdateDirty texOk g me t h1 h2 hl hn ht
  rw [h]
  refine ⟨rfl, rfl, ?_⟩
  exact congrArg UpdateResult.uploaded
    (textureUpdateClean texOk2 g { me with isNew := false } h1 h2 rfl)

/-- C7 (witness): the amended theorem at a dirty 6-byte 2×2 frame with a
matching 2×2 texture. -/
theorem C7_witness :
    (CImage.mk (some (2, 2)) (List.replicate 6 1) 6 2 2 1 true).isNew = true ∧
    (CImage.mk (some (2, 2)) (List.replicate 6 1) 6 2 2 1 true).length ≠ 0 ∧
    (CImage.mk (some (2, 2)) (List.replicate 6 1) 6 2 2 1 true).texture = some (2, 2) ∧
    ((cImage_TextureUpdate true ⟨2, 2⟩
        (CImage.mk (some (2, 2)) (List.replicate 6 1) 6 2 2 1 true)).uploaded =
      some ((CImage.mk (some (2, 2)) (List.replicate 6 1) 6 2 2 1 true).data.take
        (nv12Size 2 2)) ∧
     (cImage_TextureUpdate true ⟨2, 2⟩
        (CImage.mk (some (2, 2)) (List.replicate 6 1) 6 2 2 1 true)).img.isNew = false ∧
     (cImage_TextureUpdate true
        (cImage_TextureUpdate true ⟨2, 2⟩
          (CImage.mk (some (2, 2)) (List.replicate 6 1) 6 2 2 1 true)).g
        (cImage_TextureUpdate true ⟨2, 2⟩
          (CImage.mk (some (2, 2)) (List.replicate 6 1) 6 2 2 1 true)).img).uploaded
       = none) :=
  ⟨by decide, by decide, by decide,
   C7_consume_then_none true true ⟨2, 2⟩
     (CImage.mk (some (2, 2)) (List.replicate 6 1) 6 2 2 1 true) (2, 2)
     (by decide) (by decide) (by decide) (by decide) (by decide)⟩

/-- C8: the orientation query maps the display-orientation enum by the fixed
table — unknown and landscape to 180, landscape-flipped to 0, portrait to
270, portrait-flipped to 90 — and its result is always one of 0, 90, 180,
270. -/
theorem C8_orientation_table :
    (getOrientation .unknown = 180 ∧ getOrientation .landscape = 180 ∧
     getOrientation .landscapeFlipped = 0 ∧ getOrientation .portrait = 270 ∧
     getOrientation .portraitFlipped = 90) ∧
    ∀ o : DisplayOrientation, getOrientation o = 0 ∨ getOrientation o = 90 ∨
      getOrientation o = 180 ∨ getOrientation o = 270 := by
  refine ⟨⟨rfl, rfl, rfl, rfl, rfl⟩, ?_⟩
  intro o
  cases o <;> simp [getOrientation]

/-- C9: when allocation fails during a growing submission, the dirty flag
and the recorded width and height are left unchanged, but `length` has
already been set to the new larger size (and the old storage freed) — the
submission is not atomic on error. -/
theorem C9_failed_growth :
    ∀ (me : CImage) (s : Submission), me.length < s.bytes.length →
      (processYUVImage false s me).isNew = me.isNew ∧
      (processYUVImage false s me).width = me.width ∧
      (processYUVImage false s me).height = me.height ∧
      (processYUVImage false s me).length = s.bytes.length ∧
      (processYUVImage false s me).data = [] := by
  intro me s h
  simp only [processYUVImage]
  rw [if_pos h]
  simp

/-- C9 (witness): a failed 3-byte submission from the initial state updates
`length` to 3 while leaving the dirty flag and dimensions untouched. -/
theorem C9_witness :
    initImage.length < [5, 6, 7].length ∧
    ((processYUVImage false ⟨[5, 6, 7], 1, 1⟩ initImage).isNew = initImage.isNew ∧
     (processYUVImage false ⟨[5, 6, 7], 1, 1⟩ initImage).width = initImage.width ∧
     (processYUVImage false ⟨[5, 6, 7], 1, 1⟩ initImage).height = initImage.height ∧
     (processYUVImage false ⟨[5, 6, 7], 1, 1⟩ initImage).length = [5, 6, 7].length ∧
     (processYUVImage false ⟨[5, 6, 7], 1, 1⟩ initImage).data = []) :=
  ⟨by decide, C9_failed_growth initImage ⟨[5, 6, 7], 1, 1⟩ (by decide)⟩

/-- C10: before the first submission, a render tick from the initial state
(zero dimensions equal to the presenter's initial cache, zero length, null
texture) succeeds while creating no texture, uploading nothing, and drawing
nothing, leaving every piece of state unchanged. -/
theorem C10_first_tick_noop :
    ∀ (texOk : Bool) (screenRect : FRect) (orientation : Int),
      SDL_AppIterate texOk initGlobals initImage screenRect orientation =
        (AppResult.cont, initGlobals, initImage, none) ∧
      (cImage_Render texOk initGlobals initImage screenRect orientation).drawn = none := by
  intro texOk screenRect orientation
  constructor <;>
    simp [SDL_AppIterate, cImage_Render, cImage_TextureUpdate, initGlobals, initImage]

end CameraXSDL3
